import Mathlib

/-!
# Verification of the receipt-preview export application

A shallow embedding of the two source files of the repository
(`src/App.tsx`, `src/types.ts`): a React single-page app that lets the
user edit a set of receipt fields, shows a live scaled preview, and
exports the preview as a PNG via an off-screen clone, `html2canvas`
rasterization, and a resampling canvas.

Modelling conventions:
* JavaScript numbers that stay within small integer/rational range are
  modelled as `ℕ` / `ℚ`.  The one place where IEEE-754 rounding of a
  division could in principle diverge from the rational value is
  `targetHeight = 840 * h / w`; all concrete inputs used below are chosen
  so that the double-precision result is exact, hence the rational model
  agrees with the JavaScript semantics there.
* Assigning a fractional number to `HTMLCanvasElement.width/height` goes
  through the WebIDL `unsigned long` conversion: truncation toward zero,
  then reduction modulo 2^32 (no rounding).  This is `jsToUint32` below.
* `Math.round x` is `⌊x + 1/2⌋` (ties toward +∞), `jsRound` below.
* The DOM state touched by the export handler (busy flag, attached
  clones, alerts, triggered downloads) is made explicit as a record that
  the handler transforms; the outcome of the two fallible external steps
  (`html2canvas`, `getContext('2d')`) is an explicit environment input.
-/

/-! ## Field store (`src/types.ts`, `handleDataChange` in `src/App.tsx`) -/

/-- The nine receipt fields of `interface ReceiptData` (src/types.ts). -/
structure ReceiptData where
  transactionId : String
  dateTime : String
  amount : String
  fromAccount : String
  beneficiaryName : String
  beneficiaryAccount : String
  purpose : String
  comments : String
  channel : String
deriving DecidableEq, Repr

/-- The nine recognized field names, the keys of `ReceiptData`. -/
def recognizedFieldNames : List String :=
  ["transactionId", "dateTime", "amount", "fromAccount", "beneficiaryName",
   "beneficiaryAccount", "purpose", "comments", "channel"]

/-- A JavaScript object holding string-valued properties: a partial map
from property names to strings.  `none` models an absent property. -/
def JsStringObject : Type := String → Option String

/-- The initial `receiptData` state (src/App.tsx lines 8-18), as a
JavaScript object. -/
def initialReceiptData : JsStringObject := fun key =>
  if key = "transactionId" then some "16325459761"
  else if key = "dateTime" then some "10/25/2025 9:09:24 PM"
  else if key = "amount" then some "9,000"
  else if key = "fromAccount" then some "ST MEDIA (PRIV"
  else if key = "beneficiaryName" then some "ST MEDIA (PRIV"
  else if key = "beneficiaryAccount" then some "*4003"
  else if key = "purpose" then some "Others"
  else if key = "comments" then some "Miscellaneous"
  else if key = "channel" then some "via HBL PAY"
  else none

/-- `handleDataChange` (src/App.tsx lines 48-54): the state updater
`prevData => ({...prevData, [name]: value})`.  The spread with a computed
key overwrites the property `name` (or adds it if absent). -/
def handleDataChange (name value : String) (prevData : JsStringObject) :
    JsStringObject :=
  Function.update prevData name (some value)

/-- The `FieldSet` view of the state object: the nine recognized fields,
read off the JavaScript object (each is present from startup on; `getD ""`
is only a formal total-ization). -/
def toFieldSet (s : JsStringObject) : ReceiptData :=
  { transactionId := (s "transactionId").getD ""
    dateTime := (s "dateTime").getD ""
    amount := (s "amount").getD ""
    fromAccount := (s "fromAccount").getD ""
    beneficiaryName := (s "beneficiaryName").getD ""
    beneficiaryAccount := (s "beneficiaryAccount").getD ""
    purpose := (s "purpose").getD ""
    comments := (s "comments").getD ""
    channel := (s "channel").getD "" }

/-! ## Layout sizing (src/App.tsx lines 24, 130-131, 174-189) -/

/-- `PREVIEW_SOURCE_WIDTH = 600` (src/App.tsx line 24). -/
def PREVIEW_SOURCE_WIDTH : ℕ := 600

/-- `PREVIEW_DISPLAY_WIDTH = 600` (src/App.tsx line 130). -/
def PREVIEW_DISPLAY_WIDTH : ℕ := 600

/-- `scale = PREVIEW_DISPLAY_WIDTH / PREVIEW_SOURCE_WIDTH`
(src/App.tsx line 131). -/
def displayScale : ℚ := (PREVIEW_DISPLAY_WIDTH : ℚ) / (PREVIEW_SOURCE_WIDTH : ℚ)

/-- A CSS height value: either the keyword `auto` or a pixel length. -/
inductive CssHeight where
  | auto : CssHeight
  | px : ℚ → CssHeight
deriving DecidableEq, Repr

/-- The preview container's height style (src/App.tsx line 178):
`previewHeight ? previewHeight * scale + "px" : "auto"`.  `previewHeight`
comes from `offsetHeight`, a nonnegative integer; JavaScript truthiness
of a number is `≠ 0`. -/
def containerHeight (previewHeight : ℕ) : CssHeight :=
  if previewHeight ≠ 0 then CssHeight.px ((previewHeight : ℚ) * displayScale)
  else CssHeight.auto

/-! ## The capture clone (src/App.tsx lines 64-72) -/

/-- A DOM element, abstracted to what the export pipeline touches: its
content (the whole subtree: structure, text, classes — opaque here) and
its inline style, a map from CSS property names to values. -/
structure DomNode where
  content : String
  style : String → String

/-- `node.cloneNode(true)` (src/App.tsx line 66): a deep structural
duplicate — equal content, equal inline style. -/
def cloneNodeDeep (node : DomNode) : DomNode := node

/-- Setting one inline style property. -/
def setStyle (st : String → String) (prop value : String) : String → String :=
  Function.update st prop value

/-- The clone construction of `handleDownload` (src/App.tsx lines 66-71):
deep-clone the source node, then force position/top/left (off-screen
placement), transform `none`, and an explicit width of
`PREVIEW_SOURCE_WIDTH` pixels. -/
def makeCaptureClone (sourceNode : DomNode) : DomNode :=
  let clone := cloneNodeDeep sourceNode
  { clone with
    style :=
      setStyle (setStyle (setStyle (setStyle (setStyle clone.style
        "position" "absolute") "top" "0") "left" "-9999px")
        "transform" "none") "width" (toString PREVIEW_SOURCE_WIDTH ++ "px") }

/-! ## Output dimensions and filename (src/App.tsx lines 86-109) -/

/-- WebIDL `unsigned long` conversion applied when a JavaScript number is
assigned to `canvas.width` / `canvas.height`: truncate toward zero, then
reduce modulo 2^32.  (For the nonnegative values arising here this is
just the floor.) -/
def jsToUint32 (x : ℚ) : ℕ :=
  ((if x < 0 then -⌊-x⌋ else ⌊x⌋) % (2 ^ 32 : ℤ)).toNat

/-- `Math.round`: round half toward +∞. -/
def jsRound (x : ℚ) : ℤ := ⌊x + 1 / 2⌋

/-- `targetWidth = 840` (src/App.tsx line 86). -/
def targetWidth : ℕ := 840

/-- `targetHeight = targetWidth / sourceAspectRatio` where
`sourceAspectRatio = sourceCanvas.width / sourceCanvas.height`
(src/App.tsx lines 89-90), for a source canvas of `w × h` pixels. -/
def targetHeight (w h : ℕ) : ℚ :=
  (targetWidth : ℚ) / ((w : ℚ) / (h : ℚ))

/-- The pixel dimensions of the allocated target canvas
(src/App.tsx lines 93-95): `targetCanvas.width = targetWidth;
targetCanvas.height = targetHeight` — both assignments pass through the
canvas `unsigned long` coercion, so the fractional `targetHeight` is
truncated. -/
def exportDims (w h : ℕ) : ℕ × ℕ :=
  (jsToUint32 (targetWidth : ℚ), jsToUint32 (targetHeight w h))

/-- The download filename (src/App.tsx line 108):
`hbl-confirmation-{targetWidth}x{Math.round(targetHeight)}.png`. -/
def downloadFileName (w h : ℕ) : String :=
  "hbl-confirmation-" ++ toString targetWidth ++ "x"
    ++ toString (jsRound (targetHeight w h)) ++ ".png"

/-! ## The export handler as a state transformer (src/App.tsx lines 56-120) -/

/-- Outcome of the `html2canvas` call: a canvas of given pixel
dimensions, or a rejected promise. -/
inductive RasterResult where
  | canvas : ℕ → ℕ → RasterResult
  | error : RasterResult
deriving DecidableEq, Repr

/-- The environment one run of `handleDownload` executes against:
whether `previewRef.current` is non-null, what `html2canvas` returns, and
whether `targetCanvas.getContext('2d')` succeeds. -/
structure ExportEnv where
  surface : Option DomNode
  raster : RasterResult
  ctxOk : Bool

/-- A file handed to the synthetic anchor click: its name and the actual
pixel dimensions of the encoded canvas. -/
structure DownloadedFile where
  name : String
  width : ℕ
  height : ℕ
deriving DecidableEq, Repr

/-- The observable state the export handler manipulates: the
`isDownloading` busy flag, the number of capture clones currently
attached to `document.body`, alerts shown, and downloads triggered (most
recent first). -/
structure RunState where
  isDownloading : Bool
  cloneCount : ℕ
  alerts : List String
  downloads : List DownloadedFile
deriving DecidableEq, Repr

/-- The alert text of the catch block (src/App.tsx line 114). -/
def errorAlertMsg : String :=
  "An error occurred while generating the image. Please check the console."

/-- The state before any export: idle, no clone, no alert, no download. -/
def initialRunState : RunState :=
  { isDownloading := false, cloneCount := 0, alerts := [], downloads := [] }

/-- One run of `handleDownload` (src/App.tsx lines 56-120), with the
control flow of the source made explicit:
* line 58: if `previewRef.current` is null, return (no state change);
* line 62: `setIsDownloading(true)`;
* line 72: `document.body.appendChild(clone)`;
* try-block: `html2canvas` may reject (caught at line 112, alert at 114);
  a null 2D context throws (line 99, same catch); otherwise the target
  canvas is drawn and the download link is clicked (lines 104-110);
* finally-block (lines 115-119): `document.body.removeChild(clone)` and
  `setIsDownloading(false)` run on every path out of the try. -/
def handleDownload (env : ExportEnv) (s : RunState) : RunState :=
  match env.surface with
  | none => s
  | some _sourceNode =>
    let s1 : RunState := { s with isDownloading := true }
    let s2 : RunState := { s1 with cloneCount := s1.cloneCount + 1 }
    let s3 : RunState :=
      match env.raster with
      | RasterResult.error => { s2 with alerts := errorAlertMsg :: s2.alerts }
      | RasterResult.canvas w h =>
        if env.ctxOk then
          { s2 with downloads :=
              { name := downloadFileName w h
                width := (exportDims w h).1
                height := (exportDims w h).2 } :: s2.downloads }
        else
          { s2 with alerts := errorAlertMsg :: s2.alerts }
    { s3 with cloneCount := s3.cloneCount - 1, isDownloading := false }

/-- A concrete DOM node used to instantiate theorems. -/
def sampleNode : DomNode :=
  { content := "receipt-preview", style := fun _ => "" }

/-! ## Reentrancy guard (src/App.tsx lines 56-72, 115-119, 152-156)

The export is asynchronous: it suspends at the settle delay and at the
`html2canvas` call, and only then runs its finally-block.  Between the
synchronous prefix (null-check, `setIsDownloading(true)`, clone
attachment) and the finally-block, other UI events can interleave.  The
transition system below makes those interleavings explicit.  A click on
the download button invokes `handleDownload` only when the button is not
disabled; the button is rendered with `disabled={isDownloading}`
(src/App.tsx line 154), so a click while `isDownloading` is `true`
changes nothing. -/

/-- The UI-visible state between event-loop turns: the busy flag, the
number of capture clones attached to the document, and whether the
preview surface ref is non-null. -/
structure UiState where
  isDownloading : Bool
  cloneCount : ℕ
  surfaceMounted : Bool
deriving DecidableEq, Repr

/-- The initial UI state: idle, no clone attached, preview mounted. -/
def initUiState : UiState :=
  { isDownloading := false, cloneCount := 0, surfaceMounted := true }

/-- One event-loop turn.
* `clickStart`: a click while idle with the surface mounted runs the
  synchronous prefix of `handleDownload` (lines 56-72): the busy flag is
  set and one clone is attached; the export is then in flight.
* `clickNoSurface`: a click while idle with a null `previewRef.current`
  returns at line 59 with no state change.
* `clickWhileBusy`: a click while `isDownloading` hits a disabled button
  (line 154), so `handleDownload` is not invoked at all.
* `finishExport`: the in-flight export's finally-block (lines 115-119)
  runs — on the success path and on the error path alike — removing the
  clone and clearing the busy flag. -/
inductive UiStep : UiState → UiState → Prop where
  | clickStart (s : UiState) :
      s.isDownloading = false → s.surfaceMounted = true →
      UiStep s { s with isDownloading := true, cloneCount := s.cloneCount + 1 }
  | clickNoSurface (s : UiState) :
      s.isDownloading = false → s.surfaceMounted = false → UiStep s s
  | clickWhileBusy (s : UiState) :
      s.isDownloading = true → UiStep s s
  | finishExport (s : UiState) :
      s.isDownloading = true →
      UiStep s { s with isDownloading := false, cloneCount := s.cloneCount - 1 }

/-- The states reachable from the initial state by event-loop turns. -/
inductive UiReachable : UiState → Prop where
  | init : UiReachable initUiState
  | step {s s' : UiState} : UiReachable s → UiStep s s' → UiReachable s'

/-! ## Theorems -/

/-- Helper: the dimensions of the allocated target canvas for a
1200 × 1005 source canvas.  `targetHeight = 840 / (1200/1005) = 703.5`
(exact in double precision), and the canvas coercion truncates it. -/
theorem exportDims_at_1200_1005 : exportDims 1200 1005 = (840, 703) := by
  norm_num [exportDims, jsToUint32, targetHeight, targetWidth]
  exact ⟨rfl, rfl⟩

/-- Helper: `Math.round(703.5) = 704`. -/
theorem jsRound_at_1200_1005 : jsRound (targetHeight 1200 1005) = 704 := by
  norm_num [jsRound, targetHeight, targetWidth]

/-- Helper: the filename generated for a 1200 × 1005 source canvas. -/
theorem downloadFileName_at_1200_1005 :
    downloadFileName 1200 1005 = "hbl-confirmation-840x704.png" := by
  rw [downloadFileName, jsRound_at_1200_1005]
  rfl

/-- Claim C1 (code bug): for the source canvas 1200 × 1005 the code
allocates the output canvas at 840 × 703 — the fractional
`targetHeight = 703.5` is truncated by the canvas `unsigned long`
coercion — whereas the specified height `round(840 * h / w)` is 704.
The code's own filename applies `Math.round` to the same quantity, so
the allocated canvas contradicts the size the code itself advertises. -/
theorem outputImage_height_truncated_not_rounded :
    exportDims 1200 1005 = (840, 703)
      ∧ jsRound (targetHeight 1200 1005) = 704 :=
  ⟨exportDims_at_1200_1005, jsRound_at_1200_1005⟩

/-- Claim C4 (code bug): the export of a 1200 × 1005 source canvas emits
a file named `hbl-confirmation-840x704.png` whose actual pixel
dimensions are 840 × 703: the name encodes `Math.round(targetHeight)`
while the canvas was allocated at the truncated height, so the filename
does not encode the actual resolution of the emitted image. -/
theorem downloadFileName_mismatches_actual_height :
    (handleDownload
        { surface := some sampleNode
          raster := RasterResult.canvas 1200 1005
          ctxOk := true } initialRunState).downloads =
      [{ name := "hbl-confirmation-840x704.png", width := 840, height := 703 }] := by
  simp [handleDownload, initialRunState, downloadFileName_at_1200_1005,
    exportDims_at_1200_1005]

/-- Claim C2: updating the field store with a field name that is not one
of the nine recognized keys leaves the FieldSet — the nine-field record
of `ReceiptData` — exactly unchanged: the spread `{...prevData, [name]:
value}` only touches the property `name`, and no recognized field is
affected. -/
theorem update_unknown_field_fieldSet_unchanged
    (name value : String) (s : JsStringObject)
    (h : name ∉ recognizedFieldNames) :
    toFieldSet (handleDataChange name value s) = toFieldSet s := by
  simp only [recognizedFieldNames, List.mem_cons, List.not_mem_nil, or_false,
    not_or] at h
  obtain ⟨h1, h2, h3, h4, h5, h6, h7, h8, h9⟩ := h
  unfold toFieldSet handleDataChange
  rw [Function.update_noteq (fun e => h1 e.symm),
      Function.update_noteq (fun e => h2 e.symm),
      Function.update_noteq (fun e => h3 e.symm),
      Function.update_noteq (fun e => h4 e.symm),
      Function.update_noteq (fun e => h5 e.symm),
      Function.update_noteq (fun e => h6 e.symm),
      Function.update_noteq (fun e => h7 e.symm),
      Function.update_noteq (fun e => h8 e.symm),
      Function.update_noteq (fun e => h9 e.symm)]

/-- Witness for claim C2: updating the unrecognized key `bogusField` on
the initial state leaves the FieldSet unchanged. -/
theorem update_unknown_field_fieldSet_unchanged_witness :
    toFieldSet (handleDataChange "bogusField" "42" initialReceiptData)
      = toFieldSet initialReceiptData :=
  update_unknown_field_fieldSet_unchanged "bogusField" "42" initialReceiptData
    (by decide)

/-- Claim C3: in every reachable UI state, the number of attached
capture clones is 1 exactly when the busy flag is set and 0 otherwise —
so the busy flag is `true` strictly between export start and its
completion, a click during that window changes nothing (the button is
disabled, so no second clone is ever created), and at most one clone is
attached at any time. -/
theorem busy_flag_guards_single_clone (s : UiState) (h : UiReachable s) :
    s.cloneCount = (if s.isDownloading then 1 else 0) ∧ s.cloneCount ≤ 1 := by
  induction h with
  | init => simp [initUiState]
  | step hr hstep ih =>
    cases hstep with
    | clickStart hb hs =>
      obtain ⟨ih1, -⟩ := ih
      rw [hb] at ih1
      simp at ih1
      simp [ih1]
    | clickNoSurface hb hs => exact ih
    | clickWhileBusy hb => exact ih
    | finishExport hb =>
      obtain ⟨ih1, -⟩ := ih
      rw [hb] at ih1
      simp at ih1
      simp [ih1]

/-- Witness for claim C3: the state just after a click started an export
(busy, one clone attached) is reachable and satisfies the invariant. -/
theorem busy_flag_guards_single_clone_witness :
    (UiState.mk true 1 true).cloneCount
        = (if (UiState.mk true 1 true).isDownloading then 1 else 0)
      ∧ (UiState.mk true 1 true).cloneCount ≤ 1 :=
  busy_flag_guards_single_clone (UiState.mk true 1 true)
    (UiReachable.step UiReachable.init (UiStep.clickStart initUiState rfl rfl))

/-- Claim C5: whenever the export reaches clone attachment (the surface
ref is non-null), the finally-block restores the attached-clone count to
its pre-export value on every exit path — success, rasterization
failure, and context failure alike — and clears the busy flag. -/
theorem capture_clone_removed_on_all_paths
    (env : ExportEnv) (s : RunState) (h : env.surface.isSome) :
    (handleDownload env s).cloneCount = s.cloneCount
      ∧ (handleDownload env s).isDownloading = false := by
  obtain ⟨node, hn⟩ := Option.isSome_iff_exists.mp h
  cases hr : env.raster with
  | canvas w hh =>
    by_cases hc : env.ctxOk <;> simp [handleDownload, hn, hr, hc]
  | error => simp [handleDownload, hn, hr]

/-- Witness for claim C5: a failing export from the initial state ends
with zero clones attached and the busy flag cleared. -/
theorem capture_clone_removed_on_all_paths_witness :
    (handleDownload
        { surface := some sampleNode, raster := RasterResult.error, ctxOk := true }
        initialRunState).cloneCount = initialRunState.cloneCount
      ∧ (handleDownload
          { surface := some sampleNode, raster := RasterResult.error, ctxOk := true }
          initialRunState).isDownloading = false :=
  capture_clone_removed_on_all_paths _ _ rfl

/-- Claim C6: if `html2canvas` rejects or the 2D context is unavailable,
the run shows exactly the image-generation alert, ends with the busy
flag cleared, leaves the attached-clone count as it was, and triggers no
download. -/
theorem raster_failure_alerts_and_cleans_up
    (env : ExportEnv) (s : RunState) (node : DomNode)
    (hsurf : env.surface = some node)
    (hfail : env.raster = RasterResult.error ∨ env.ctxOk = false) :
    (handleDownload env s).alerts = errorAlertMsg :: s.alerts
      ∧ (handleDownload env s).isDownloading = false
      ∧ (handleDownload env s).cloneCount = s.cloneCount
      ∧ (handleDownload env s).downloads = s.downloads := by
  rcases hfail with hr | hc
  · simp [handleDownload, hsurf, hr]
  · cases hr : env.raster with
    | canvas w hh => simp [handleDownload, hsurf, hr, hc]
    | error => simp [handleDownload, hsurf, hr]

/-- Witness for claim C6: a rasterization failure from the initial state
alerts, resets the busy flag, detaches the clone, and downloads
nothing. -/
theorem raster_failure_alerts_and_cleans_up_witness :
    (handleDownload
        { surface := some sampleNode, raster := RasterResult.error, ctxOk := true }
        initialRunState).alerts = errorAlertMsg :: initialRunState.alerts
      ∧ (handleDownload
          { surface := some sampleNode, raster := RasterResult.error, ctxOk := true }
          initialRunState).isDownloading = false
      ∧ (handleDownload
          { surface := some sampleNode, raster := RasterResult.error, ctxOk := true }
          initialRunState).cloneCount = initialRunState.cloneCount
      ∧ (handleDownload
          { surface := some sampleNode, raster := RasterResult.error, ctxOk := true }
          initialRunState).downloads = initialRunState.downloads :=
  raster_failure_alerts_and_cleans_up _ _ sampleNode rfl (Or.inl rfl)

/-- Claim C7: when `previewRef.current` is null, `handleDownload`
returns at once and the export is a complete no-op — the whole
observable state (busy flag, clone count, alerts, downloads) is exactly
what it was. -/
theorem missing_surface_export_noop
    (env : ExportEnv) (s : RunState) (h : env.surface = none) :
    handleDownload env s = s := by
  simp [handleDownload, h]

/-- Witness for claim C7: with a null surface the initial state is
returned unchanged. -/
theorem missing_surface_export_noop_witness :
    handleDownload
        { surface := none, raster := RasterResult.error, ctxOk := true }
        initialRunState = initialRunState :=
  missing_surface_export_noop _ _ rfl

/-- Claim C8: for a measured preview height `H > 0` the display
container height is exactly `H * (displayWidth / sourceWidth)` pixels,
and for `H = 0` (no successful measurement yet) it is the keyword
`auto`. -/
theorem container_height_tracks_measured_height (H : ℕ) :
    (0 < H → containerHeight H
        = CssHeight.px ((H : ℚ)
            * ((PREVIEW_DISPLAY_WIDTH : ℚ) / (PREVIEW_SOURCE_WIDTH : ℚ))))
      ∧ (H = 0 → containerHeight H = CssHeight.auto) := by
  constructor
  · intro h
    simp [containerHeight, displayScale, Nat.pos_iff_ne_zero.mp h]
  · intro h
    simp [containerHeight, h]

/-- Witness for claim C8: a measured height of 120 gives a container
height of `120 * (600/600)` pixels, and a measured height of 0 gives
`auto`. -/
theorem container_height_tracks_measured_height_witness :
    containerHeight 120
        = CssHeight.px ((120 : ℚ)
            * ((PREVIEW_DISPLAY_WIDTH : ℚ) / (PREVIEW_SOURCE_WIDTH : ℚ)))
      ∧ containerHeight 0 = CssHeight.auto :=
  ⟨(container_height_tracks_measured_height 120).1 (by norm_num),
    (container_height_tracks_measured_height 0).2 rfl⟩

/-- Claim C9: the capture clone is a deep duplicate of the rendered
surface whose style differs from the original in exactly the five forced
inline properties — absolute off-screen positioning (`position`, `top`,
`left`), a `none` transform, and an explicit width of
`PREVIEW_SOURCE_WIDTH` (600) pixels — while its content and every other
style property are unchanged. -/
theorem capture_clone_only_style_overrides (sourceNode : DomNode) :
    (makeCaptureClone sourceNode).content = sourceNode.content
      ∧ (makeCaptureClone sourceNode).style "position" = "absolute"
      ∧ (makeCaptureClone sourceNode).style "top" = "0"
      ∧ (makeCaptureClone sourceNode).style "left" = "-9999px"
      ∧ (makeCaptureClone sourceNode).style "transform" = "none"
      ∧ (makeCaptureClone sourceNode).style "width"
          = toString PREVIEW_SOURCE_WIDTH ++ "px"
      ∧ toString PREVIEW_SOURCE_WIDTH ++ "px" = "600px"
      ∧ ∀ prop : String,
          prop ∉ ["position", "top", "left", "transform", "width"] →
          (makeCaptureClone sourceNode).style prop = sourceNode.style prop := by
  refine ⟨rfl, ?_, ?_, ?_, ?_, ?_, rfl, ?_⟩
  · simp [makeCaptureClone, cloneNodeDeep, setStyle, Function.update]
  · simp [makeCaptureClone, cloneNodeDeep, setStyle, Function.update]
  · simp [makeCaptureClone, cloneNodeDeep, setStyle, Function.update]
  · simp [makeCaptureClone, cloneNodeDeep, setStyle, Function.update]
  · simp [makeCaptureClone, cloneNodeDeep, setStyle, Function.update]
  · intro prop hp
    simp only [List.mem_cons, List.not_mem_nil, or_false, not_or] at hp
    obtain ⟨hp1, hp2, hp3, hp4, hp5⟩ := hp
    simp [makeCaptureClone, cloneNodeDeep, setStyle,
      Function.update_noteq hp1, Function.update_noteq hp2,
      Function.update_noteq hp3, Function.update_noteq hp4,
      Function.update_noteq hp5]

/-- Witness for claim C9: on the sample node the clone keeps the content
and an untouched property such as `color`. -/
theorem capture_clone_only_style_overrides_witness :
    (makeCaptureClone sampleNode).content = sampleNode.content
      ∧ (makeCaptureClone sampleNode).style "color" = sampleNode.style "color" :=
  ⟨(capture_clone_only_style_overrides sampleNode).1,
    (capture_clone_only_style_overrides sampleNode).2.2.2.2.2.2.2 "color"
      (by decide)⟩

/-- Claim C10: because `PREVIEW_DISPLAY_WIDTH` and
`PREVIEW_SOURCE_WIDTH` are both 600, the display scale is the constant
1 — the preview is never actually shrunk — and for every positive
measured height the container height equals the measured height
unchanged. -/
theorem display_scale_identity :
    displayScale = 1
      ∧ ∀ H : ℕ, 0 < H → containerHeight H = CssHeight.px (H : ℚ) := by
  constructor
  · norm_num [displayScale, PREVIEW_DISPLAY_WIDTH, PREVIEW_SOURCE_WIDTH]
  · intro H h
    simp [containerHeight, displayScale, Nat.pos_iff_ne_zero.mp h,
      PREVIEW_DISPLAY_WIDTH, PREVIEW_SOURCE_WIDTH]

/-- Witness for claim C10: the scale is 1 and a measured height of 50
displays as 50 pixels. -/
theorem display_scale_identity_witness :
    displayScale = 1 ∧ containerHeight 50 = CssHeight.px (50 : ℚ) :=
  ⟨display_scale_identity.1, display_scale_identity.2 50 (by norm_num)⟩
